import Mathlib

/-!
# Verification of `nocmodel/noc_codegen_base.py`

A shallow embedding of the code-generation base model of the `nocmodel`
repository (class `noc_codegen_base`): the record schemas for generics,
ports and signals, the mutation operations `add_generic`, `add_port`,
`add_external_signal`, the implementation delegate `build_implementation`,
and the structural hasher `model_hash`.

Python dictionaries with a fixed key set are embedded as Lean structures.
The `signal_desc` argument of `add_port` is a *partial* dictionary (only
the keys `class` and `name` are required), so it is embedded as a structure
of `Option` fields, with `dict.update` merging present keys.  the Python
dynamically typed values (bool / int / myhdl.intbv / str / myhdl Signal)
are embedded as the inductive `PyValue`.  Raising `TypeError` / `ValueError`
is embedded by returning the unchanged-so-far state together with an
`Except` error; the source raises before any mutation, and the embedding
transcribes the statements in source order.
-/

/-- Embedding of the Python values the module manipulates: `bool`, `int`,
`myhdl.intbv`, `str`, and `myhdl.SignalType` (whose `_init` field holds the
initial value).  Used for `default_value` / `current_value` fields and for
the `value` arguments of the add operations. -/
inductive PyValue : Type where
  | bool (b : Bool)
  | int (n : Int)
  | intbv (n : Int)
  | str (s : String)
  | signal (init : PyValue)
deriving DecidableEq

/-- A generic record: the dict shape of `_empty_generic` in the source
(keys `class`, `name`, `type`, `type_array`, `default_value`,
`current_value`, `description`). -/
structure GenericRec : Type where
  className : String
  name : String
  type : String
  type_array : Option String × Option String
  default_value : PyValue
  current_value : PyValue
  description : String
deriving DecidableEq

/-- A possibly-partial signal dictionary, as passed to `add_port` via its
`signal_desc` argument and stored in the signal lists of ports.  Each field is
`Option`al: `none` means the key is absent from the dict. -/
structure SigDesc : Type where
  className : Option String
  name : Option String
  type : Option String
  type_array : Option (Option String × Option String)
  direction : Option String
  default_value : Option PyValue
  related_generics : Option (List String)
  description : Option String
deriving DecidableEq

/-- A full signal record, the dict shape of `_empty_signal` in the source:
all keys present.  External signals are always created from
`get_new_signal`, so the `external_signals` collection holds full records. -/
structure SignalRec : Type where
  className : String
  name : String
  type : String
  type_array : Option String × Option String
  direction : String
  default_value : PyValue
  related_generics : List String
  description : String
deriving DecidableEq

/-- A port record, the dict shape of `_empty_port` in the source (keys
`class`, `name`, `type`, `nocport`, `signal_list`, `description`). -/
structure PortRec : Type where
  className : String
  name : String
  type : String
  nocport : Option Nat
  signal_list : List SigDesc
  description : String
deriving DecidableEq

/-- The attribute `generate_implementation` of a `codemodel` object:
either present but not callable, or a callable returning a `PyValue`. -/
inductive GenImplAttr : Type where
  | notCallable
  | callable (ret : PyValue)
deriving DecidableEq

/-- A `codemodel` capability of the subject object; its
`generate_implementation` attribute may be absent (`none`). -/
structure Codemodel : Type where
  generate_implementation : Option GenImplAttr
deriving DecidableEq

/-- The subject object (`nocobject_ref`): only its optional `codemodel`
capability is relevant to the embedded operations. -/
structure Subject : Type where
  codemodel : Option Codemodel
deriving DecidableEq

/-- The state of a `noc_codegen_base` instance: the fields set in
`__init__`. -/
structure Model : Type where
  nocobject_ref : Subject
  external_conversion : Bool
  docheader : String
  libraries : String
  modulename : String
  generics : List GenericRec
  ports : List PortRec
  external_signals : List SignalRec
  implementation : String
  interface_hash : String
deriving DecidableEq

/-- Embedding of the exceptions raised by the module: `TypeError` and
`ValueError`, each carrying a message. -/
inductive PyError : Type where
  | typeError (msg : String)
  | valueError (msg : String)
deriving DecidableEq

/-- The `_empty_generic` template dict. -/
def empty_generic : GenericRec :=
  { className := "generic", name := "", type := "",
    type_array := (none, none), default_value := .str "",
    current_value := .str "", description := "" }

/-- The `_empty_port` template dict. -/
def empty_port : PortRec :=
  { className := "port", name := "", type := "", nocport := none,
    signal_list := [], description := "" }

/-- The `_empty_signal` template dict. -/
def empty_signal : SignalRec :=
  { className := "signal", name := "", type := "",
    type_array := (none, none), direction := "",
    default_value := .str "", related_generics := [], description := "" }

/-- `get_new_generic(name = name)`: a deep copy of `_empty_generic` with
the `name` key updated. -/
def get_new_generic (name : String) : GenericRec :=
  { empty_generic with name := name }

/-- `get_new_port(name = name)`. -/
def get_new_port (name : String) : PortRec :=
  { empty_port with name := name }

/-- `get_new_signal(name = name)`. -/
def get_new_signal (name : String) : SignalRec :=
  { empty_signal with name := name }

/-- `isinstance(value, (bool, int, intbv, str))`: the value types
`add_generic` accepts. -/
def isGenericValue : PyValue → Bool
  | .bool _ => true
  | .int _ => true
  | .intbv _ => true
  | .str _ => true
  | .signal _ => false

/-- `isinstance(value, (bool, int, intbv))`: the value types
`add_external_signal` accepts after coercion (note: no `str`). -/
def isExtSignalValue : PyValue → Bool
  | .bool _ => true
  | .int _ => true
  | .intbv _ => true
  | .str _ => false
  | .signal _ => false

/-- `if isinstance(value, SignalType): value = value._init` — one level of
coercion from a myhdl signal to its initial value. -/
def coerceSignalValue : PyValue → PyValue
  | .signal init => init
  | v => v

/-- The body of `add_generic` after validation: find the first generic with
this name and update `default_value` and `description` in place
(`g.update(...)` through the list reference), or append
`get_new_generic(name)` so updated.  Returns the updated list and the
record the method returns. -/
def addGenericList (l : List GenericRec) (nm : String) (v : PyValue)
    (d : String) : List GenericRec × GenericRec :=
  match l with
  | [] =>
      let g := { get_new_generic nm with default_value := v, description := d }
      ([g], g)
  | g :: rest =>
      if g.name = nm then
        let g2 := { g with default_value := v, description := d }
        (g2 :: rest, g2)
      else
        let p := addGenericList rest nm v d
        (g :: p.1, p.2)

/-- `add_generic(self, name, value, description = "")` (without extra
keyword arguments): validates the name and value types, then inserts or
updates the generic.  Returns the state after the call together with the
result of the method (`ok` with the returned dict, or `error` for a raise). -/
def add_generic (m : Model) (name : PyValue) (value : PyValue)
    (description : String) : Model × Except PyError GenericRec :=
  match name with
  | .str nm =>
      if isGenericValue value then
        let p := addGenericList m.generics nm value description
        ({ m with generics := p.1 }, .ok p.2)
      else
        (m, .error (.typeError "Unsupported type"))
  | _ => (m, .error (.typeError "Name must be string"))

/-- `dict.update(signal_desc)`: keys present in the argument overwrite; the
others keep their previous value. -/
def updateSigDesc (old upd : SigDesc) : SigDesc :=
  { className := match upd.className with | some x => some x | none => old.className,
    name := match upd.name with | some x => some x | none => old.name,
    type := match upd.type with | some x => some x | none => old.type,
    type_array := match upd.type_array with | some x => some x | none => old.type_array,
    direction := match upd.direction with | some x => some x | none => old.direction,
    default_value := match upd.default_value with | some x => some x | none => old.default_value,
    related_generics := match upd.related_generics with | some x => some x | none => old.related_generics,
    description := match upd.description with | some x => some x | none => old.description }

/-- The signal-merge step of `add_port`: find the first signal with
the name of `signal_desc` in the signal list of the port and merge `signal_desc`
into it, or append `signal_desc`. -/
def addSigToList (l : List SigDesc) (sd : SigDesc) : List SigDesc :=
  match l with
  | [] => [sd]
  | s :: rest =>
      if s.name = sd.name then updateSigDesc s sd :: rest
      else s :: addSigToList rest sd

/-- The per-port update of `add_port`: update the description only when
the given string is non-empty, then merge the signal when one is given. -/
def updatePortRec (p : PortRec) (sd : Option SigDesc) (d : String) : PortRec :=
  let p1 := if d ≠ "" then { p with description := d } else p
  match sd with
  | some s => { p1 with signal_list := addSigToList p1.signal_list s }
  | none => p1

/-- The body of `add_port` after validation: find the first port with this
name and update it in place, or append an updated `get_new_port(name)`. -/
def addPortList (l : List PortRec) (nm : String) (sd : Option SigDesc)
    (d : String) : List PortRec × PortRec :=
  match l with
  | [] =>
      let p := updatePortRec (get_new_port nm) sd d
      ([p], p)
  | p :: rest =>
      if p.name = nm then
        let p2 := updatePortRec p sd d
        (p2 :: rest, p2)
      else
        let q := addPortList rest nm sd d
        (p :: q.1, q.2)

/-- The `signal_desc` validation of `add_port`: when a dict is given it
must contain the keys `class` and `name`, and its `class` must be
`"signal"`.  Returns the raised error, if any. -/
def sigDescError (sd : Option SigDesc) : Option PyError :=
  match sd with
  | none => none
  | some s =>
      if ¬ (s.className.isSome ∧ s.name.isSome) then
        some (.typeError "Argument signal_desc must be a signal dict")
      else if s.className ≠ some "signal" then
        some (.typeError "Argument signal_desc must be a signal dict")
      else none

/-- `add_port(self, name, signal_desc = None, description = "")` (without
extra keyword arguments). -/
def add_port (m : Model) (name : PyValue) (signal_desc : Option SigDesc)
    (description : String) : Model × Except PyError PortRec :=
  match name with
  | .str nm =>
      match sigDescError signal_desc with
      | some e => (m, .error e)
      | none =>
          let q := addPortList m.ports nm signal_desc description
          ({ m with ports := q.1 }, .ok q.2)
  | _ => (m, .error (.typeError "Name must be string"))

/-- The body of `add_external_signal` after validation: find the first
external signal with this name and overwrite `direction`, `default_value`
and `description` in place, or append an updated `get_new_signal(name)`. -/
def addExtSignalList (l : List SignalRec) (nm : String) (dir : String)
    (v : PyValue) (d : String) : List SignalRec × SignalRec :=
  match l with
  | [] =>
      let s := { get_new_signal nm with
                 direction := dir, default_value := v, description := d }
      ([s], s)
  | s :: rest =>
      if s.name = nm then
        let s2 := { s with direction := dir, default_value := v, description := d }
        (s2 :: rest, s2)
      else
        let q := addExtSignalList rest nm dir v d
        (s :: q.1, q.2)

/-- `add_external_signal(self, name, direction, value, description = "")`
(without extra keyword arguments): validates the name, coerces a
myhdl-signal value to its initial value, validates the value type and the
direction, then inserts or updates. -/
def add_external_signal (m : Model) (name : PyValue) (direction : String)
    (value : PyValue) (description : String) :
    Model × Except PyError SignalRec :=
  match name with
  | .str nm =>
      let v := coerceSignalValue value
      if isExtSignalValue v then
        if direction = "in" ∨ direction = "out" then
          let q := addExtSignalList m.external_signals nm direction v description
          ({ m with external_signals := q.1 }, .ok q.2)
        else
          (m, .error (.valueError "Direction must be in or out"))
      else
        (m, .error (.typeError "Unsupported type"))
  | _ => (m, .error (.typeError "Name must be string"))

/-- `build_implementation(self)`: when the subject has a `codemodel`
capability, start from `implementation = ""`, warn (without calling) if
`generate_implementation` is absent or not callable, otherwise call it;
finally assign `self.implementation` whenever the local variable holds a
string.  Returns the state after the call and the list of warnings
emitted. -/
def build_implementation (m : Model) : Model × List String :=
  match m.nocobject_ref.codemodel with
  | none => (m, [])
  | some cm =>
      match cm.generate_implementation with
      | none =>
          ({ m with implementation := "" },
           ["Method generate_implementation not found."])
      | some .notCallable =>
          ({ m with implementation := "" },
           ["Attribute generate_implementation not callable"])
      | some (.callable ret) =>
          match ret with
          | .str s => ({ m with implementation := s }, [])
          | _ => (m, [])

/-- The sort order used by `model_hash`: the Python
`list.sort(key = lambda x: x[0])` compares the name component only. -/
def keyLe {α : Type} (a b : String × α) : Prop := a.1 ≤ b.1

instance {α : Type} : DecidableRel (@keyLe α) :=
  fun a b => inferInstanceAs (Decidable (a.1 ≤ b.1))

instance {α : Type} : IsTotal (String × α) keyLe :=
  ⟨fun a b => le_total a.1 b.1⟩

instance {α : Type} : IsTrans (String × α) keyLe :=
  ⟨fun _ _ _ h1 h2 => le_trans h1 h2⟩

/-- `model_hash(self)`: build `[name, type]` per generic,
`[name, type, len(signal_list)]` per port and `[name, type, direction]`
per external signal, sort each list by its first component, and append
`"%s%s" % (g[0], g[1])` for every entry — the name and type only; the
signal count of the port and the direction of the external signal are *not*
formatted into the string. -/
def model_hash (m : Model) : String :=
  let hash_gen := List.insertionSort keyLe
    (m.generics.map (fun g => (g.name, g.type)))
  let s1 := hash_gen.foldl (fun acc g => acc ++ g.1 ++ g.2) ""
  let hash_port := List.insertionSort keyLe
    (m.ports.map (fun p => (p.name, (p.type, p.signal_list.length))))
  let s2 := hash_port.foldl (fun acc g => acc ++ g.1 ++ g.2.1) s1
  let hash_ext := List.insertionSort keyLe
    (m.external_signals.map (fun s => (s.name, (s.type, s.direction))))
  hash_ext.foldl (fun acc g => acc ++ g.1 ++ g.2.1) s2

/-- The final assignment `self.interface_hash = hash_str` of
`model_hash`. -/
def model_hash_update (m : Model) : Model :=
  { m with interface_hash := model_hash m }

/-- First generic with the given name, as the Python
`filter(lambda x: x["name"] == name, ...)` selects it. -/
def lookupGeneric (m : Model) (nm : String) : Option GenericRec :=
  m.generics.find? (fun g => g.name = nm)

/-- First port with the given name. -/
def lookupPort (m : Model) (nm : String) : Option PortRec :=
  m.ports.find? (fun p => p.name = nm)

/-- First external signal with the given name. -/
def lookupExtSignal (m : Model) (nm : String) : Option SignalRec :=
  m.external_signals.find? (fun s => s.name = nm)

/-- A model as produced by `__init__` (all collections empty, all strings
empty), for a given subject. -/
def initModel (subj : Subject) : Model :=
  { nocobject_ref := subj, external_conversion := false, docheader := "",
    libraries := "", modulename := "", generics := [], ports := [],
    external_signals := [], implementation := "", interface_hash := "" }

/-! ## Helper lemmas about the find-or-create-and-update recursions -/

theorem addGenericList_snd (l : List GenericRec) (nm : String) (v : PyValue)
    (d : String) :
    (addGenericList l nm v d).2.name = nm ∧
    (addGenericList l nm v d).2.default_value = v ∧
    (addGenericList l nm v d).2.description = d := by
  induction l with
  | nil => simp [addGenericList, get_new_generic, empty_generic]
  | cons g rest ih =>
      by_cases h : g.name = nm
      · simp [addGenericList, h]
      · simpa [addGenericList, h] using ih

theorem addGenericList_find (l : List GenericRec) (nm : String) (v : PyValue)
    (d : String) :
    (addGenericList l nm v d).1.find? (fun g => g.name = nm)
      = some (addGenericList l nm v d).2 := by
  induction l with
  | nil => simp [addGenericList, get_new_generic, empty_generic]
  | cons g rest ih =>
      by_cases h : g.name = nm
      · simp [addGenericList, h]
      · simp [addGenericList, h, List.find?, ih]

theorem addGenericList_length (l : List GenericRec) (nm : String) (v : PyValue)
    (d : String) (h : ∃ g ∈ l, g.name = nm) :
    (addGenericList l nm v d).1.length = l.length := by
  induction l with
  | nil => simp at h
  | cons g rest ih =>
      by_cases hg : g.name = nm
      · simp [addGenericList, hg]
      · have h2 : ∃ g ∈ rest, g.name = nm := by
          rcases h with ⟨x, hx, hxn⟩
          rcases List.mem_cons.mp hx with rfl | hx2
          · exact absurd hxn hg
          · exact ⟨x, hx2, hxn⟩
        simp [addGenericList, hg, ih h2]

theorem addGenericList_mem (l : List GenericRec) (nm : String) (v : PyValue)
    (d : String) : ∃ g ∈ (addGenericList l nm v d).1, g.name = nm := by
  induction l with
  | nil => simp [addGenericList, get_new_generic, empty_generic]
  | cons g rest ih =>
      by_cases h : g.name = nm
      · refine ⟨{ g with default_value := v, description := d }, ?_, ?_⟩
        · simp [addGenericList, h]
        · simpa using h
      · rcases ih with ⟨x, hx, hxn⟩
        exact ⟨x, by simp [addGenericList, h, hx], hxn⟩

/-! ## Claims about `add_generic` -/

/-- C4: for every valid name (non-empty string) and valid values, after
`add_generic(name, value, description)` the generic looked up by that name
has `default_value` and `description` equal to the last values passed, and
a second `add_generic` on the same name with different values updates that
record in place without changing the length of the generics collection. -/
theorem add_generic_last_write_wins (m : Model) (nm : String) (hnm : nm ≠ "")
    (v v2 : PyValue) (d d2 : String)
    (hv : isGenericValue v = true) (hv2 : isGenericValue v2 = true) :
    ((lookupGeneric (add_generic m (.str nm) v d).1 nm).map
        (fun g => (g.default_value, g.description)) = some (v, d)) ∧
    ((lookupGeneric (add_generic (add_generic m (.str nm) v d).1
          (.str nm) v2 d2).1 nm).map
        (fun g => (g.default_value, g.description)) = some (v2, d2)) ∧
    (add_generic (add_generic m (.str nm) v d).1 (.str nm) v2 d2).1.generics.length
      = (add_generic m (.str nm) v d).1.generics.length := by
  simp only [add_generic, hv, hv2, if_true, lookupGeneric]
  refine ⟨?_, ?_, ?_⟩
  · rw [addGenericList_find]
    rcases addGenericList_snd m.generics nm v d with ⟨_, h2, h3⟩
    simp [h2, h3]
  · rw [addGenericList_find]
    rcases addGenericList_snd (addGenericList m.generics nm v d).1 nm v2 d2
      with ⟨_, h2, h3⟩
    simp [h2, h3]
  · exact addGenericList_length _ nm v2 d2 (addGenericList_mem m.generics nm v d)

/-- C4 witness: concrete run of `add_generic` twice on the name `"W"`. -/
theorem add_generic_last_write_wins_witness :
    ((lookupGeneric (add_generic (initModel ⟨none⟩) (.str "W") (.int 8) "w").1
        "W").map (fun g => (g.default_value, g.description))
      = some (.int 8, "w")) ∧
    ((lookupGeneric (add_generic (add_generic (initModel ⟨none⟩) (.str "W")
          (.int 8) "w").1 (.str "W") (.int 16) "w2").1 "W").map
        (fun g => (g.default_value, g.description)) = some (.int 16, "w2")) ∧
    (add_generic (add_generic (initModel ⟨none⟩) (.str "W") (.int 8) "w").1
        (.str "W") (.int 16) "w2").1.generics.length
      = (add_generic (initModel ⟨none⟩) (.str "W") (.int 8) "w").1.generics.length :=
  add_generic_last_write_wins (initModel ⟨none⟩) "W" (by decide)
    (.int 8) (.int 16) "w" "w2" rfl rfl

/-- C3 counterexample: the name check is `isinstance(name, str)`, and the
empty string is a string, so `add_generic("")` succeeds and appends an
entry instead of failing. -/
theorem add_generic_empty_name_accepted :
    ((add_generic (initModel ⟨none⟩) (.str "") (.int 0) "").2
      = .ok { get_new_generic "" with default_value := .int 0, description := "" }) ∧
    (add_generic (initModel ⟨none⟩) (.str "") (.int 0) "").1.generics.length = 1 :=
  ⟨rfl, rfl⟩

/-- C3 amended: for each of `add_generic`, `add_port` and
`add_external_signal`, a name argument that is not a string (of any
content, the empty string included, since the source only checks
`isinstance(name, str)`) fails with a `TypeError` and adds no entry. -/
theorem add_ops_nonstring_name (m : Model) (name : PyValue)
    (h : ∀ s, name ≠ .str s) (v : PyValue) (d : String) (sd : Option SigDesc)
    (dir : String) :
    add_generic m name v d = (m, .error (.typeError "Name must be string")) ∧
    add_port m name sd d = (m, .error (.typeError "Name must be string")) ∧
    add_external_signal m name dir v d
      = (m, .error (.typeError "Name must be string")) := by
  cases name with
  | str s => exact absurd rfl (h s)
  | bool b => exact ⟨rfl, rfl, rfl⟩
  | int n => exact ⟨rfl, rfl, rfl⟩
  | intbv n => exact ⟨rfl, rfl, rfl⟩
  | signal i => exact ⟨rfl, rfl, rfl⟩

/-- C3 amended witness: a concrete non-string name (an integer). -/
theorem add_ops_nonstring_name_witness :
    add_generic (initModel ⟨none⟩) (.int 7) (.int 0) ""
      = (initModel ⟨none⟩, .error (.typeError "Name must be string")) ∧
    add_port (initModel ⟨none⟩) (.int 7) none ""
      = (initModel ⟨none⟩, .error (.typeError "Name must be string")) ∧
    add_external_signal (initModel ⟨none⟩) (.int 7) "in" (.int 0) ""
      = (initModel ⟨none⟩, .error (.typeError "Name must be string")) :=
  add_ops_nonstring_name (initModel ⟨none⟩) (.int 7)
    (fun s hs => PyValue.noConfusion hs) (.int 0) "" none "in"

/-- C10: `model_hash` reads only the `generics`, `ports` and
`external_signals` collections, so two models agreeing on those three
collections return identical hash strings whatever their `modulename`,
`docheader`, `libraries` or `implementation`. -/
theorem model_hash_depends_only_on_interface (m1 m2 : Model)
    (hg : m1.generics = m2.generics) (hp : m1.ports = m2.ports)
    (he : m1.external_signals = m2.external_signals) :
    model_hash m1 = model_hash m2 := by
  simp only [model_hash, hg, hp, he]

/-- C10 witness: two concrete models differing in `modulename`,
`docheader`, `libraries` and `implementation` only. -/
theorem model_hash_depends_only_on_interface_witness :
    model_hash (initModel ⟨none⟩)
      = model_hash { initModel ⟨none⟩ with
          modulename := "m", docheader := "d",
          libraries := "l", implementation := "i" } :=
  model_hash_depends_only_on_interface _ _ rfl rfl rfl

/-- C7: with a valid name and a value of accepted type, any direction
outside `{"in", "out"}` makes `add_external_signal` raise a `ValueError`
and leaves the model unchanged (no entry added). -/
theorem add_external_signal_bad_direction (m : Model) (nm : String)
    (hnm : nm ≠ "") (dir : String) (hin : dir ≠ "in") (hout : dir ≠ "out")
    (v : PyValue) (hv : isExtSignalValue (coerceSignalValue v) = true)
    (d : String) :
    add_external_signal m (.str nm) dir v d
      = (m, .error (.valueError "Direction must be in or out")) := by
  have hd : ¬ (dir = "in" ∨ dir = "out") := by
    rintro (h | h)
    · exact hin h
    · exact hout h
  simp [add_external_signal, hv, hd]

/-- C7 witness: the case-variant direction `"IN"` is rejected. -/
theorem add_external_signal_bad_direction_witness :
    add_external_signal (initModel ⟨none⟩) (.str "s") "IN" (.int 0) ""
      = (initModel ⟨none⟩, .error (.valueError "Direction must be in or out")) :=
  add_external_signal_bad_direction (initModel ⟨none⟩) "s" (by decide) "IN"
    (by decide) (by decide) (.int 0) rfl ""

/-- C9: each add operation performs all of its validation before touching
any collection, so whenever it raises, the model is returned exactly as it
was before the call. -/
theorem add_ops_atomic_on_error (m : Model) (name v : PyValue) (d : String)
    (sd : Option SigDesc) (dir : String) (e1 e2 e3 : PyError) :
    ((add_generic m name v d).2 = .error e1 → (add_generic m name v d).1 = m) ∧
    ((add_port m name sd d).2 = .error e2 → (add_port m name sd d).1 = m) ∧
    ((add_external_signal m name dir v d).2 = .error e3 →
      (add_external_signal m name dir v d).1 = m) := by
  refine ⟨?_, ?_, ?_⟩
  · intro h
    cases name with
    | str s =>
        by_cases hv : isGenericValue v
        · simp [add_generic, hv] at h
        · simp [add_generic, hv]
    | bool b => rfl
    | int n => rfl
    | intbv n => rfl
    | signal i => rfl
  · intro h
    cases name with
    | str s =>
        cases hse : sigDescError sd with
        | some e => simp [add_port, hse]
        | none => simp [add_port, hse] at h
    | bool b => rfl
    | int n => rfl
    | intbv n => rfl
    | signal i => rfl
  · intro h
    cases name with
    | str s =>
        by_cases hv : isExtSignalValue (coerceSignalValue v)
        · by_cases hd : dir = "in" ∨ dir = "out"
          · simp [add_external_signal, hv, hd] at h
          · simp [add_external_signal, hv, hd]
        · simp [add_external_signal, hv]
    | bool b => rfl
    | int n => rfl
    | intbv n => rfl
    | signal i => rfl

/-- C9 witness: three concrete failing calls (unsupported generic value, a
`signal_desc` dict without the required keys, a myhdl-signal value whose
initial value is a string) leave the model untouched. -/
theorem add_ops_atomic_on_error_witness :
    (add_generic (initModel ⟨none⟩) (.str "n") (.signal (.str "x")) "").1
      = initModel ⟨none⟩ ∧
    (add_port (initModel ⟨none⟩) (.str "n")
        (some { className := none, name := none, type := none,
                type_array := none, direction := none, default_value := none,
                related_generics := none, description := none }) "").1
      = initModel ⟨none⟩ ∧
    (add_external_signal (initModel ⟨none⟩) (.str "n") "in"
        (.signal (.str "x")) "").1 = initModel ⟨none⟩ :=
  ⟨(add_ops_atomic_on_error (initModel ⟨none⟩) (.str "n") (.signal (.str "x"))
      "" none "in" (.typeError "Unsupported type")
      (.typeError "Argument signal_desc must be a signal dict")
      (.typeError "Unsupported type")).1 rfl,
   (add_ops_atomic_on_error (initModel ⟨none⟩) (.str "n") (.signal (.str "x"))
      ""
      (some { className := none, name := none, type := none,
              type_array := none, direction := none, default_value := none,
              related_generics := none, description := none })
      "in" (.typeError "Unsupported type")
      (.typeError "Argument signal_desc must be a signal dict")
      (.typeError "Unsupported type")).2.1 rfl,
   (add_ops_atomic_on_error (initModel ⟨none⟩) (.str "n") (.signal (.str "x"))
      "" none "in" (.typeError "Unsupported type")
      (.typeError "Argument signal_desc must be a signal dict")
      (.typeError "Unsupported type")).2.2 rfl⟩

/-- The external signal used by the C1 failing input, with a direction
argument. -/
def dirSignal (dir : String) : SignalRec :=
  { empty_signal with name := "s", type := "t", direction := dir }

/-- The model of the C1 failing input: one external signal named `"s"` of
type `"t"` with the given direction, nothing else. -/
def dirModel (dir : String) : Model :=
  { initModel ⟨none⟩ with external_signals := [dirSignal dir] }

/-- C1: `model_hash` builds the triple `[name, type, direction]` for each
external signal but formats only `"%s%s" % (g[0], g[1])` into the hash
string, so two models that differ only in the direction of an external
signal hash identically — against the source comment, which announces a
stream of name, type *and* direction. -/
theorem model_hash_ignores_ext_direction :
    (dirSignal "in").direction ≠ (dirSignal "out").direction ∧
    (dirSignal "in").name = (dirSignal "out").name ∧
    (dirSignal "in").type = (dirSignal "out").type ∧
    model_hash (dirModel "in") = "st" ∧
    model_hash (dirModel "out") = "st" := by
  refine ⟨?_, rfl, rfl, rfl, rfl⟩
  intro h
  simpa [dirSignal] using h

/-- The model of the C2 failing input: prior implementation text `"prev"`
and a subject whose `codemodel` lacks `generate_implementation`. -/
def modelMissingGen : Model :=
  { initModel ⟨some ⟨none⟩⟩ with implementation := "prev" }

/-- A model whose subject has no `codemodel` capability at all, with a
prior implementation text. -/
def modelNoCodemodel : Model :=
  { initModel ⟨none⟩ with implementation := "prev" }

/-- C2: when `codemodel` is present but `generate_implementation` is
missing, `build_implementation` warns but also overwrites the prior
implementation text with the empty string (the local variable
`implementation = ""` is a string, so the final `isinstance` assignment
fires) — against the docstring, which promises to do nothing on failure;
and when `codemodel` is absent it leaves the field alone but emits no
warning at all. -/
theorem build_implementation_clobbers_on_missing_method :
    modelMissingGen.implementation = "prev" ∧
    (build_implementation modelMissingGen).1.implementation = "" ∧
    (build_implementation modelMissingGen).2
      = ["Method generate_implementation not found."] ∧
    build_implementation modelNoCodemodel = (modelNoCodemodel, []) :=
  ⟨rfl, rfl, rfl, rfl⟩

/-! ## Helper lemmas about `add_port` -/

theorem updatePortRec_name (p : PortRec) (sd : Option SigDesc) (d : String) :
    (updatePortRec p sd d).name = p.name := by
  cases sd <;> by_cases hd : d ≠ "" <;> simp [updatePortRec, hd]

theorem updatePortRec_description (p : PortRec) (sd : Option SigDesc)
    (d : String) :
    (updatePortRec p sd d).description
      = if d = "" then p.description else d := by
  by_cases hd : d = "" <;> cases sd <;> simp [updatePortRec, hd]

theorem updatePortRec_signal_list (p : PortRec) (sd : Option SigDesc)
    (d : String) :
    (updatePortRec p sd d).signal_list
      = match sd with
        | some s => addSigToList p.signal_list s
        | none => p.signal_list := by
  cases sd <;> by_cases hd : d ≠ "" <;> simp [updatePortRec, hd]

theorem addPortList_snd_name (l : List PortRec) (nm : String)
    (sd : Option SigDesc) (d : String) :
    (addPortList l nm sd d).2.name = nm := by
  induction l with
  | nil => simp [addPortList, updatePortRec_name, get_new_port, empty_port]
  | cons p rest ih =>
      by_cases h : p.name = nm
      · simpa [addPortList, h, updatePortRec_name] using h
      · simpa [addPortList, h] using ih

theorem addPortList_find (l : List PortRec) (nm : String) (sd : Option SigDesc)
    (d : String) :
    (addPortList l nm sd d).1.find? (fun p => p.name = nm)
      = some (addPortList l nm sd d).2 := by
  induction l with
  | nil =>
      have hn : (updatePortRec (get_new_port nm) sd d).name = nm := by
        simp [updatePortRec_name, get_new_port, empty_port]
      simp [addPortList, List.find?, hn]
  | cons p rest ih =>
      by_cases h : p.name = nm
      · have hn : (updatePortRec p sd d).name = nm := by
          simp [updatePortRec_name, h]
        simp [addPortList, h, List.find?, hn]
      · simp [addPortList, h, List.find?, ih]

theorem addPortList_snd_of_find_some (l : List PortRec) (nm : String)
    (sd : Option SigDesc) (d : String) (q : PortRec)
    (h : l.find? (fun p => p.name = nm) = some q) :
    (addPortList l nm sd d).2 = updatePortRec q sd d := by
  induction l with
  | nil => simp at h
  | cons p rest ih =>
      by_cases hp : p.name = nm
      · rw [List.find?_cons_of_pos _ (by simpa using hp)] at h
        cases h
        simp [addPortList, hp]
      · rw [List.find?_cons_of_neg _ (by simpa using hp)] at h
        simp [addPortList, hp, ih h]

theorem addPortList_snd_of_find_none (l : List PortRec) (nm : String)
    (sd : Option SigDesc) (d : String)
    (h : l.find? (fun p => p.name = nm) = none) :
    (addPortList l nm sd d).2 = updatePortRec (get_new_port nm) sd d := by
  induction l with
  | nil => simp [addPortList]
  | cons p rest ih =>
      by_cases hp : p.name = nm
      · rw [List.find?_cons_of_pos _ (by simpa using hp)] at h
        cases h
      · rw [List.find?_cons_of_neg _ (by simpa using hp)] at h
        simp [addPortList, hp, ih h]

/-- C5: on a port that already exists, `add_port` with an empty
description argument leaves the stored description unchanged, and with a
non-empty description argument always replaces it; the `signal_desc`
argument (any one passing validation) plays no role in this. -/
theorem add_port_description_policy (m : Model) (p : String) (q : PortRec)
    (hq : lookupPort m p = some q) (hqd : q.description ≠ "")
    (sd : Option SigDesc) (hsd : sigDescError sd = none) (d : String)
    (hd : d ≠ "") :
    ((lookupPort (add_port m (.str p) sd "").1 p).map PortRec.description
      = some q.description) ∧
    ((lookupPort (add_port m (.str p) sd d).1 p).map PortRec.description
      = some d) := by
  simp only [add_port, hsd, lookupPort] at *
  constructor
  · rw [addPortList_find]
    rw [addPortList_snd_of_find_some m.ports p sd "" q hq]
    simp [updatePortRec_description]
  · rw [addPortList_find]
    rw [addPortList_snd_of_find_some m.ports p sd d q hq]
    simp [updatePortRec_description, hd]

/-- C5 witness: a port `"clk"` with description `"the clock"`; an
empty-description call keeps it, a non-empty one replaces it. -/
theorem add_port_description_policy_witness :
    ((lookupPort (add_port (add_port (initModel ⟨none⟩) (.str "clk") none
        "the clock").1 (.str "clk") none "").1 "clk").map PortRec.description
      = some "the clock") ∧
    ((lookupPort (add_port (add_port (initModel ⟨none⟩) (.str "clk") none
        "the clock").1 (.str "clk") none "new text").1 "clk").map
        PortRec.description = some "new text") :=
  add_port_description_policy (add_port (initModel ⟨none⟩) (.str "clk") none
      "the clock").1 "clk"
    { className := "port", name := "clk", type := "", nocport := none,
      signal_list := [], description := "the clock" }
    rfl (by decide) none rfl "new text" (by decide)

/-- C6: on a fresh port name, two `add_port` calls whose `signal_desc`
records carry the same signal name but different types leave exactly one
signal entry with that name in the signal list of the port, and its type
is the one from the second call. -/
theorem add_port_signal_type_merge (m : Model) (p n t1 t2 : String)
    (hfresh : lookupPort m p = none) (sd1 sd2 : SigDesc)
    (h1c : sd1.className = some "signal") (h1n : sd1.name = some n)
    (h2c : sd2.className = some "signal") (h2n : sd2.name = some n)
    (h1t : sd1.type = some t1) (h2t : sd2.type = some t2) (hne : t1 ≠ t2) :
    (lookupPort (add_port (add_port m (.str p) (some sd1) "").1
        (.str p) (some sd2) "").1 p).map
      (fun q => (q.signal_list.filter (fun s => s.name = some n)).map
        SigDesc.type)
      = some [some t2] := by
  have hv1 : sigDescError (some sd1) = none := by
    simp [sigDescError, h1c, h1n]
  have hv2 : sigDescError (some sd2) = none := by
    simp [sigDescError, h2c, h2n]
  simp only [add_port, hv1, hv2, lookupPort] at hfresh ⊢
  rw [addPortList_find,
    addPortList_snd_of_find_some _ p (some sd2) "" _
      (addPortList_find m.ports p (some sd1) ""),
    addPortList_snd_of_find_none m.ports p (some sd1) "" hfresh]
  simp [updatePortRec, get_new_port, empty_port, addSigToList, h1n, h2n,
    updateSigDesc, h2t]

/-- C6 witness: concrete `signal_desc` records named `"clk"` with types
`"bit"` then `"std_logic"`. -/
theorem add_port_signal_type_merge_witness :
    (lookupPort (add_port (add_port (initModel ⟨none⟩) (.str "p")
        (some { className := some "signal", name := some "clk",
                type := some "bit", type_array := none, direction := none,
                default_value := none, related_generics := none,
                description := none }) "").1
        (.str "p")
        (some { className := some "signal", name := some "clk",
                type := some "std_logic", type_array := none,
                direction := none, default_value := none,
                related_generics := none, description := none }) "").1
        "p").map
      (fun q => (q.signal_list.filter (fun s => s.name = some "clk")).map
        SigDesc.type)
      = some [some "std_logic"] :=
  add_port_signal_type_merge (initModel ⟨none⟩) "p" "clk" "bit" "std_logic"
    rfl
    { className := some "signal", name := some "clk", type := some "bit",
      type_array := none, direction := none, default_value := none,
      related_generics := none, description := none }
    { className := some "signal", name := some "clk",
      type := some "std_logic", type_array := none, direction := none,
      default_value := none, related_generics := none, description := none }
    rfl rfl rfl rfl rfl rfl (by decide)

/-! ## Order independence of the structural hash -/

theorem sorted_perm_nodup_key_eq {α : Type} {l1 l2 : List (String × α)}
    (hp : l1.Perm l2) (hs1 : l1.Sorted keyLe) (hs2 : l2.Sorted keyLe)
    (hn : (l1.map Prod.fst).Nodup) : l1 = l2 := by
  induction l1 generalizing l2 with
  | nil => exact (hp.nil_eq)
  | cons a t1 ih =>
      cases l2 with
      | nil => exact absurd hp.symm.nil_eq (by simp)
      | cons b t2 =>
          have hab : a = b := by
            have ha2 : a ∈ b :: t2 := hp.subset (List.mem_cons_self a t1)
            rcases List.mem_cons.mp ha2 with h | ha3
            · exact h
            · have hb1 : b ∈ a :: t1 := hp.symm.subset (List.mem_cons_self b t2)
              rcases List.mem_cons.mp hb1 with h | hb3
              · exact h.symm
              · have h1 : keyLe a b := List.rel_of_sorted_cons hs1 b hb3
                have h2 : keyLe b a := List.rel_of_sorted_cons hs2 a ha3
                have hkey : a.1 = b.1 := le_antisymm h1 h2
                have hnot : a.1 ∉ t1.map Prod.fst := by
                  simpa using (List.nodup_cons.mp hn).1
                exact absurd (by
                  rw [hkey]
                  exact List.mem_map_of_mem Prod.fst hb3) hnot
          subst hab
          have hperm := hp.cons_inv
          have := ih hperm hs1.of_cons hs2.of_cons
            (by simpa using (List.nodup_cons.mp hn).2)
          rw [this]

theorem insertionSort_eq_of_perm {α : Type} {l1 l2 : List (String × α)}
    (hp : l1.Perm l2) (hn : (l1.map Prod.fst).Nodup) :
    List.insertionSort keyLe l1 = List.insertionSort keyLe l2 :=
  sorted_perm_nodup_key_eq
    ((List.perm_insertionSort keyLe l1).trans
      (hp.trans (List.perm_insertionSort keyLe l2).symm))
    (List.sorted_insertionSort keyLe l1)
    (List.sorted_insertionSort keyLe l2)
    (((List.perm_insertionSort keyLe l1).map Prod.fst).nodup_iff.mpr hn)

/-- C8: with unique names within each collection (the invariant the add
operations maintain), `model_hash` is invariant under any reordering of
the generics, ports and external signals — in particular a model built by
adding A then B hashes the same as one built by adding B then A. -/
theorem model_hash_order_independent (m1 m2 : Model)
    (hg : m1.generics.Perm m2.generics)
    (hp : m1.ports.Perm m2.ports)
    (he : m1.external_signals.Perm m2.external_signals)
    (hng : (m1.generics.map GenericRec.name).Nodup)
    (hnp : (m1.ports.map PortRec.name).Nodup)
    (hne : (m1.external_signals.map SignalRec.name).Nodup) :
    model_hash m1 = model_hash m2 := by
  have e1 : List.insertionSort keyLe
      (m1.generics.map (fun g => (g.name, g.type)))
      = List.insertionSort keyLe
        (m2.generics.map (fun g => (g.name, g.type))) :=
    insertionSort_eq_of_perm (hg.map _)
      (by simpa [List.map_map, Function.comp] using hng)
  have e2 : List.insertionSort keyLe
      (m1.ports.map (fun p => (p.name, (p.type, p.signal_list.length))))
      = List.insertionSort keyLe
        (m2.ports.map (fun p => (p.name, (p.type, p.signal_list.length)))) :=
    insertionSort_eq_of_perm (hp.map _)
      (by simpa [List.map_map, Function.comp] using hnp)
  have e3 : List.insertionSort keyLe
      (m1.external_signals.map (fun s => (s.name, (s.type, s.direction))))
      = List.insertionSort keyLe
        (m2.external_signals.map (fun s => (s.name, (s.type, s.direction)))) :=
    insertionSort_eq_of_perm (he.map _)
      (by simpa [List.map_map, Function.comp] using hne)
  simp only [model_hash, e1, e2, e3]

/-- A generic named `"a"` of type `"int"` for the C8 witness. -/
def genA : GenericRec := { empty_generic with name := "a", type := "int" }

/-- A generic named `"b"` of type `"bool"` for the C8 witness. -/
def genB : GenericRec := { empty_generic with name := "b", type := "bool" }

/-- A model whose generics collection holds the given list. -/
def genModel (l : List GenericRec) : Model :=
  { initModel ⟨none⟩ with generics := l }

/-- C8 witness: the generics A and B inserted in either order hash the
same. -/
theorem model_hash_order_independent_witness :
    model_hash (genModel [genA, genB]) = model_hash (genModel [genB, genA]) :=
  model_hash_order_independent (genModel [genA, genB]) (genModel [genB, genA])
    (List.Perm.swap genB genA []) (List.Perm.refl _) (List.Perm.refl _)
    (by decide) (by decide) (by decide)
